import Mathlib

/-!
Verification development for the npm_config_reader dashboard (src/app.py).

The application keeps a two-slot in-memory snapshot store: a module-level
dict CACHE (current capture: text, UTC timestamp, last error, exit code)
and a dict PREV (previous capture: text, timestamp).  The POST /fetch
handler runs the capture, rotates CACHE into PREV when the current text is
nonempty, and records the new capture; on a capture exception it records
only the error.  GET /diff produces a unified diff of PREV versus CACHE,
GET /raw and GET /download serve the current text, and every endpoint is
gated by an optional HTTP Basic credential check.

Python strings are embedded as Lean String (character sequences, matching
Python length/slicing on code points for the truncation arithmetic we use
List Char).  Wall-clock UTC timestamps are embedded as opaque Nat values
supplied to each capture step; their textual rendering (isoformat,
strftime) is abstracted as decimal rendering where a label is needed,
since no claim inspects label contents.
-/

namespace App

/-- The module-level CACHE dict of src/app.py (lines 18-23): current
captured text, capture timestamp, last capture error, and exit code. -/
structure Cache where
  text : String
  ts : Option Nat
  err : Option String
  exit_code : Option Int
deriving DecidableEq

/-- The module-level PREV dict of src/app.py (lines 25-28): previous
captured text and its timestamp. -/
structure Prev where
  text : String
  ts : Option Nat
deriving DecidableEq

/-- The whole process-wide mutable state of the application. -/
structure St where
  cache : Cache
  prev : Prev
deriving DecidableEq

/-- Initial process state: both dicts start with empty text and None
timestamps, no error, no exit code. -/
def initialState : St :=
  St.mk (Cache.mk "" none none none) (Prev.mk "" none)

/-- Outcome of one capture attempt: fetch_nginx_T either returns the
(already truncated) text with an exit code, or raises an exception whose
string is msg.  The timestamp is the datetime.now value of that attempt,
embedded as an opaque Nat. -/
inductive FetchOutcome where
  | success (text : String) (ts : Nat) (code : Int)
  | failure (msg : String)
deriving DecidableEq

/-- The body of the POST /fetch handler (src/app.py lines 916-933): on
success, rotate the current snapshot into PREV when its text is truthy
(nonempty), then overwrite CACHE with the new text, timestamp, cleared
error and the exit code; on an exception, set only CACHE err to the
message and CACHE exit_code to None. -/
def fetch (st : St) (o : FetchOutcome) : St :=
  match o with
  | .success text ts code =>
      St.mk (Cache.mk text (some ts) none (some code))
        (if st.cache.text ≠ "" then Prev.mk st.cache.text st.cache.ts else st.prev)
  | .failure msg =>
      St.mk (Cache.mk st.cache.text st.cache.ts (some msg) none) st.prev

/-- A sequence of capture attempts applied in order. -/
def runFetch (st : St) (os : List FetchOutcome) : St :=
  os.foldl fetch st

/-- Number of snapshots observable through the public interface: the
current slot counts when its text is nonempty (the truthiness test used
by GET /raw and by the rotation in fetch), likewise the previous slot
(the truthiness test used by GET /diff). -/
def snapshotCount (st : St) : Nat :=
  (if st.cache.text ≠ "" then 1 else 0) + (if st.prev.text ≠ "" then 1 else 0)

/-- A plain-text HTTP response: status code and body. -/
structure HttpResponse where
  status : Nat
  body : String
deriving DecidableEq

/-- The GET /raw handler (src/app.py lines 959-963): 404 when the current
text is empty, otherwise the text itself. -/
def raw (st : St) : HttpResponse :=
  if st.cache.text = "" then
    HttpResponse.mk 404 "No config cached yet. POST /fetch first.\n"
  else
    HttpResponse.mk 200 st.cache.text

/-- The GET /download handler (src/app.py lines 966-976): same 404 guard
and body as /raw.  The Content-Disposition attachment filename (a
strftime rendering of the timestamp) is presentation detail not captured
by this model. -/
def download (st : St) : HttpResponse :=
  if st.cache.text = "" then
    HttpResponse.mk 404 "No config cached yet. POST /fetch first.\n"
  else
    HttpResponse.mk 200 st.cache.text

/-- How an incoming request presents HTTP Basic credentials: no header
whose value starts with the basic scheme, a header that fails base64 or
user:password decoding, or a decoded user and password pair.  The base64
transport (Python stdlib) is abstracted into the malformed case. -/
inductive AuthHeader where
  | missing
  | malformed
  | credentials (user : String) (pwd : String)
deriving DecidableEq

/-- Result of the auth gate: pass, 401 with detail Auth required, or 401
with detail Invalid auth. -/
inductive AuthResult where
  | ok
  | authRequired
  | invalidAuth
deriving DecidableEq

/-- Python str.strip: remove leading and trailing whitespace.  Applied to
the BASIC_AUTH_USER and BASIC_AUTH_PASS environment values at startup
(src/app.py lines 12-13). -/
def pyStrip (s : String) : String :=
  String.mk (((s.toList.dropWhile Char.isWhitespace).reverse.dropWhile
    Char.isWhitespace).reverse)

/-- The auth gate _check_basic_auth (src/app.py lines 31-47): bypassed
entirely when either configured credential is empty (Python truthiness of
the conjunction BASIC_USER and BASIC_PASS); otherwise a request without a
basic-scheme Authorization header gets Auth required, an undecodable
header or a wrong pair gets Invalid auth, and a matching pair passes. -/
def check_basic_auth (basicUser basicPass : String) (h : AuthHeader) : AuthResult :=
  if basicUser = "" ∨ basicPass = "" then .ok
  else
    match h with
    | .missing => .authRequired
    | .malformed => .invalidAuth
    | .credentials u p =>
        if u = basicUser ∧ p = basicPass then .ok else .invalidAuth

/-- The literal truncation marker appended by fetch_nginx_T
(src/app.py line 62). -/
def TRUNC_MARKER : List Char := "\n\n[TRUNCATED: output exceeded MAX_CHARS]\n".toList

/-- The truncation step of fetch_nginx_T (src/app.py lines 61-63): when
the captured output exceeds the configured character cap, keep the first
cap characters and append the marker; otherwise leave it unchanged.
Python strings are embedded as List Char so that len and slicing match
code-point counting. -/
def truncateOut (maxChars : Nat) (out : List Char) : List Char :=
  if out.length > maxChars then out.take maxChars ++ TRUNC_MARKER else out

/-- Python str.splitlines restricted to newline-delimited content, the
framing used by the diff handler (a final newline does not create a
trailing empty line, and the empty string yields no lines). -/
def splitlinesAux : List Char → List Char → List (List Char)
  | [], acc => if acc = [] then [] else [acc.reverse]
  | c :: rest, acc =>
      if c = '\n' then acc.reverse :: splitlinesAux rest []
      else splitlinesAux rest (c :: acc)

/-- Python str.splitlines on a String, producing the line list handed to
the diff engine (src/app.py lines 943-944). -/
def splitlinesPy (s : String) : List String :=
  (splitlinesAux s.toList []).map String.mk

/-- Modelled from the spec: the Diff Engine of section 4.4.  The code
calls Python difflib.unified_diff, library code that is not part of src/,
so the line-matching core is modelled as the standard longest-common-
subsequence line diff the spec names, and the hunk grouping and unified
rendering follow the documented unified-diff format (context 3, hunks of
context plus removal and addition markers, header lines for each side).
One elementary edit: keep, delete (left side), or insert (right side) a
line. -/
inductive Op where
  | eq (line : String)
  | del (line : String)
  | ins (line : String)
deriving DecidableEq

/-- A longest common subsequence of two line lists: the classic
recursion, taking the longer of the two candidate results when the heads
differ. -/
def lcs : List String → List String → List String
  | [], _ => []
  | _ :: _, [] => []
  | a :: as, b :: bs =>
      if a = b then a :: lcs as bs
      else
        let l1 := lcs (a :: as) bs
        let l2 := lcs as (b :: bs)
        if l1.length ≥ l2.length then l1 else l2
termination_by x y => x.length + y.length

/-- Replay a common subsequence against both sides, emitting for each
anchor line the deletions and insertions that precede it (deletions
first, as unified diffs render them) and the anchor as a kept line; the
leftovers after the last anchor are pure deletions then insertions. -/
def replay : List String → List String → List String → List Op
  | a, b, [] => a.map Op.del ++ b.map Op.ins
  | a, b, c :: cs =>
      (a.takeWhile (fun s => s != c)).map Op.del ++
        (b.takeWhile (fun s => s != c)).map Op.ins ++
        (Op.eq c :: replay ((a.dropWhile (fun s => s != c)).tail)
          ((b.dropWhile (fun s => s != c)).tail) cs)

/-- The per-line edit script between two line lists. -/
def diffOps (a b : List String) : List Op :=
  replay a b (lcs a b)

/-- Coarse tag of an elementary edit. -/
inductive Tag0 where
  | eq
  | del
  | ins
deriving DecidableEq

/-- Tag of an elementary edit. -/
def tagOf : Op → Tag0
  | .eq _ => .eq
  | .del _ => .del
  | .ins _ => .ins

/-- Merge an edit script into maximal runs of one tag, each with its
length. -/
def runs : List Op → List (Tag0 × Nat)
  | [] => []
  | o :: rest =>
      match runs rest with
      | [] => [(tagOf o, 1)]
      | (t, k) :: rs =>
          if t = tagOf o then (tagOf o, k + 1) :: rs else (tagOf o, 1) :: (t, k) :: rs

/-- Opcode tags of the unified-diff machinery. -/
inductive DTag where
  | equal
  | delete
  | insert
  | replace
deriving DecidableEq

/-- A matching-block opcode: a tag plus half-open index ranges into the
left lines (i1, i2) and the right lines (j1, j2). -/
structure OpCode where
  tag : DTag
  i1 : Nat
  i2 : Nat
  j1 : Nat
  j2 : Nat
deriving DecidableEq

/-- Convert tag runs into opcodes with absolute index ranges, fusing a
deletion run directly followed by an insertion run into one replace
opcode. -/
def toOpcodes : List (Tag0 × Nat) → Nat → Nat → List OpCode
  | [], _, _ => []
  | (.eq, k) :: rs, i, j =>
      OpCode.mk .equal i (i + k) j (j + k) :: toOpcodes rs (i + k) (j + k)
  | (.del, k) :: (.ins, m) :: rs, i, j =>
      OpCode.mk .replace i (i + k) j (j + m) :: toOpcodes rs (i + k) (j + m)
  | (.del, k) :: rs, i, j =>
      OpCode.mk .delete i (i + k) j j :: toOpcodes rs (i + k) j
  | (.ins, m) :: rs, i, j =>
      OpCode.mk .insert i i j (j + m) :: toOpcodes rs i (j + m)

/-- Trim a leading equal opcode to at most n lines of context before the
first change. -/
def fixHead (n : Nat) : List OpCode → List OpCode
  | [] => []
  | c :: rest =>
      if c.tag = DTag.equal then
        OpCode.mk c.tag (max c.i1 (c.i2 - n)) c.i2 (max c.j1 (c.j2 - n)) c.j2 :: rest
      else c :: rest

/-- Trim a trailing equal opcode to at most n lines of context after the
last change. -/
def fixLast (n : Nat) : List OpCode → List OpCode
  | [] => []
  | [c] =>
      if c.tag = DTag.equal then
        [OpCode.mk c.tag c.i1 (min c.i2 (c.i1 + n)) c.j1 (min c.j2 (c.j1 + n))]
      else [c]
  | c :: rest => c :: fixLast n rest

/-- Split opcodes into hunk groups: an interior equal opcode wider than
twice the context closes the current group after n context lines and
starts the next group with the last n. -/
def splitGroups (n : Nat) (acc : List OpCode) : List OpCode → List (List OpCode)
  | [] => [acc.reverse]
  | c :: rest =>
      if c.tag = DTag.equal ∧ c.i2 - c.i1 > 2 * n then
        (acc.reverse ++ [OpCode.mk DTag.equal c.i1 (min c.i2 (c.i1 + n)) c.j1 (min c.j2 (c.j1 + n))]) ::
          splitGroups n
            [OpCode.mk DTag.equal (max c.i1 (c.i2 - n)) c.i2 (max c.j1 (c.j2 - n)) c.j2] rest
      else splitGroups n (c :: acc) rest

/-- Drop the final group when it is empty or consists of a single equal
opcode (a group showing no change is not a hunk). -/
def dropFinal : List (List OpCode) → List (List OpCode)
  | [] => []
  | [[]] => []
  | [[c]] => if c.tag = DTag.equal then [] else [[c]]
  | [g] => [g]
  | g :: gs => g :: dropFinal gs

/-- Group opcodes into unified-diff hunks with n lines of context: an
empty opcode list is replaced by a single dummy equal opcode, leading and
trailing context is trimmed, wide equal opcodes split groups, and a
changeless final group is dropped. -/
def groupedOpcodes (n : Nat) (codes : List OpCode) : List (List OpCode) :=
  dropFinal (splitGroups n []
    (fixLast n (fixHead n
      (match codes with
       | [] => [OpCode.mk DTag.equal 0 1 0 1]
       | _ => codes))))

/-- Render a half-open range for a hunk header: one-based start, length
omitted when it is one, start not advanced when the range is empty. -/
def formatRangeUnified (start stop : Nat) : String :=
  if stop - start = 1 then toString (start + 1)
  else if stop - start = 0 then toString start ++ ",0"
  else toString (start + 1) ++ "," ++ toString (stop - start)

/-- The slice l[i1:i2] of a line list. -/
def sliceLines (l : List String) (i1 i2 : Nat) : List String :=
  (l.take i2).drop i1

/-- Render one opcode as unified-diff lines: context lines with a space
marker, removals with a minus, additions with a plus; a replace emits its
removals before its additions. -/
def renderOpcode (a b : List String) (c : OpCode) : List String :=
  match c.tag with
  | .equal => (sliceLines a c.i1 c.i2).map (fun s => " " ++ s)
  | .delete => (sliceLines a c.i1 c.i2).map (fun s => "-" ++ s)
  | .insert => (sliceLines b c.j1 c.j2).map (fun s => "+" ++ s)
  | .replace =>
      (sliceLines a c.i1 c.i2).map (fun s => "-" ++ s) ++
        (sliceLines b c.j1 c.j2).map (fun s => "+" ++ s)

/-- Render one hunk: its header built from the first and last opcode
ranges, then its rendered opcodes. -/
def renderGroup (a b : List String) (g : List OpCode) : List String :=
  match g with
  | [] => []
  | c0 :: _ =>
      let cl := g.getLastD c0
      ("@@ -" ++ formatRangeUnified c0.i1 cl.i2 ++ " +" ++
        formatRangeUnified c0.j1 cl.j2 ++ " @@") :: g.flatMap (renderOpcode a b)

/-- The unified diff of two line lists: no output lines at all when there
are no hunks, otherwise the two file-label headers followed by every
rendered hunk. -/
def unifiedDiff (fromfile tofile : String) (a b : List String) : List String :=
  match groupedOpcodes 3 (toOpcodes (runs (diffOps a b)) 0 0) with
  | [] => []
  | gs => ("--- " ++ fromfile) :: ("+++ " ++ tofile) :: gs.flatMap (renderGroup a b)

/-- Label for one side of the diff: the isoformat of the timestamp when
present (abstracted as decimal rendering of the opaque timestamp),
otherwise the given fallback (src/app.py lines 946-947). -/
def tsLabel (ts : Option Nat) (dflt : String) : String :=
  match ts with
  | some t => toString t
  | none => dflt

/-- The GET /diff handler (src/app.py lines 936-956): 404 when the
previous text is empty (Python truthiness), otherwise the unified diff of
the previous lines against the current lines, joined with newlines plus a
final newline. -/
def diff (st : St) : HttpResponse :=
  if st.prev.text = "" then
    HttpResponse.mk 404 "No previous snapshot. Click Fetch at least twice.\n"
  else
    HttpResponse.mk 200
      (String.intercalate "\n"
        (unifiedDiff ("prev (" ++ tsLabel st.prev.ts "previous" ++ ")")
          ("curr (" ++ tsLabel st.cache.ts "current" ++ ")")
          (splitlinesPy st.prev.text) (splitlinesPy st.cache.text)) ++ "\n")

/-- The state reached from startup by a successful capture of text a
followed by a successful capture of empty text: one observable snapshot
(the rotated previous), an empty current text. -/
def emptyCurrentState : St :=
  runFetch initialState [FetchOutcome.success "a" 1 0, FetchOutcome.success "" 2 0]

theorem lcs_self (x : List String) : lcs x x = x := by
  induction x with
  | nil => simp [lcs]
  | cons a as ih => simp [lcs, ih]

theorem replay_self (x : List String) : replay x x x = x.map Op.eq := by
  induction x with
  | nil => simp [replay]
  | cons c cs ih =>
      simp [replay, ih, List.takeWhile_cons, List.dropWhile_cons]

theorem diffOps_self (x : List String) : diffOps x x = x.map Op.eq := by
  rw [diffOps, lcs_self, replay_self]

theorem runs_map_eq (a : String) (as : List String) :
    runs ((a :: as).map Op.eq) = [(Tag0.eq, as.length + 1)] := by
  induction as generalizing a with
  | nil => rfl
  | cons b bs ih =>
      simp only [List.map] at ih ⊢
      rw [runs, ih b]
      simp [tagOf]

theorem grouped_single_equal (k : Nat) :
    groupedOpcodes 3 [OpCode.mk DTag.equal 0 k 0 k] = [] := by
  have h1 : fixHead 3 [OpCode.mk DTag.equal 0 k 0 k] =
      [OpCode.mk DTag.equal (max 0 (k - 3)) k (max 0 (k - 3)) k] := by
    simp [fixHead]
  have h2 : fixLast 3 [OpCode.mk DTag.equal (max 0 (k - 3)) k (max 0 (k - 3)) k] =
      [OpCode.mk DTag.equal (max 0 (k - 3)) (min k (max 0 (k - 3) + 3))
        (max 0 (k - 3)) (min k (max 0 (k - 3) + 3))] := by
    simp [fixLast]
  have hwide : ∀ i m : Nat, m - i ≤ 6 →
      splitGroups 3 [] [OpCode.mk DTag.equal i m i m] =
        [[OpCode.mk DTag.equal i m i m]] := by
    intro i m hm
    rw [splitGroups, if_neg ?hc]
    case hc =>
      dsimp only
      rintro ⟨-, hgt⟩
      omega
    rw [splitGroups]
    rfl
  have h3 := hwide (max 0 (k - 3)) (min k (max 0 (k - 3) + 3)) (by omega)
  rw [groupedOpcodes, h1, h2, h3]
  · rfl
  · exact fun h => List.cons_ne_nil _ _ h

/-- Claim C1 counterexample: under the default configuration, after three
successful captures A, B, C the store retains exactly the two snapshots B
and C, and text A is nowhere in the state, although the claim (maximum 5
by default) requires all three most recently inserted snapshots to be
retained. -/
theorem C1_counterexample :
    runFetch initialState [FetchOutcome.success "A" 1 0, FetchOutcome.success "B" 2 0,
        FetchOutcome.success "C" 3 0] =
      St.mk (Cache.mk "C" (some 3) none (some 0)) (Prev.mk "B" (some 2)) ∧
    (runFetch initialState [FetchOutcome.success "A" 1 0, FetchOutcome.success "B" 2 0,
        FetchOutcome.success "C" 3 0]).cache.text ≠ "A" ∧
    (runFetch initialState [FetchOutcome.success "A" 1 0, FetchOutcome.success "B" 2 0,
        FetchOutcome.success "C" 3 0]).prev.text ≠ "A" ∧
    snapshotCount (runFetch initialState [FetchOutcome.success "A" 1 0,
        FetchOutcome.success "B" 2 0, FetchOutcome.success "C" 3 0]) = 2 := by
  decide

/-- Claim C1 (amended): the store has a fixed capacity of two snapshots
(current plus previous) with no configurable maximum; for every starting
state, after successfully recording A, B, C with A and B nonempty, the
retained snapshots are exactly B (previous) and C (current), and the
observable snapshot count of any state is at most 2. -/
theorem C1_amended (st : St) (a b c : String) (ta tb tc : Nat) (ca cb cc : Int)
    (ha : a ≠ "") (hb : b ≠ "") :
    runFetch st [FetchOutcome.success a ta ca, FetchOutcome.success b tb cb,
        FetchOutcome.success c tc cc] =
      St.mk (Cache.mk c (some tc) none (some cc)) (Prev.mk b (some tb)) ∧
    ∀ s : St, snapshotCount s ≤ 2 := by
  constructor
  · simp [runFetch, fetch, ha, hb]
  · intro s
    unfold snapshotCount
    split <;> split <;> omega

/-- Claim C1 witness: the amended statement evaluated on the concrete
record sequence A, B, C from the initial state. -/
theorem C1_amended_witness :
    runFetch initialState [FetchOutcome.success "A" 1 0, FetchOutcome.success "B" 2 0,
        FetchOutcome.success "C" 3 0] =
      St.mk (Cache.mk "C" (some 3) none (some 0)) (Prev.mk "B" (some 2)) :=
  (C1_amended initialState "A" "B" "C" 1 2 3 0 0 0 (by decide) (by decide)).1

/-- Claim C2 counterexample: two different capture histories, one of two
records and one of three records, leave the process in exactly the same
state, so no strictly increasing process-lifetime identifier is assigned
or kept by record: the state carries no insertion counter and no id at
all. -/
theorem C2_counterexample :
    runFetch initialState [FetchOutcome.success "A" 1 0, FetchOutcome.success "B" 2 0] =
      runFetch initialState [FetchOutcome.success "X" 0 0, FetchOutcome.success "A" 1 0,
        FetchOutcome.success "B" 2 0] := by
  decide

/-- Claim C2 (amended): snapshots carry no identifiers (only text,
timestamp, error and exit code); the state after two successful records
whose first text is nonempty is fully determined by those two records,
independent of the entire earlier history. -/
theorem C2_amended (st1 st2 : St) (a b : String) (ta tb : Nat) (ca cb : Int)
    (ha : a ≠ "") :
    runFetch st1 [FetchOutcome.success a ta ca, FetchOutcome.success b tb cb] =
      runFetch st2 [FetchOutcome.success a ta ca, FetchOutcome.success b tb cb] := by
  simp [runFetch, fetch, ha]

/-- Claim C2 witness: the amended statement evaluated at two concrete
distinct starting states. -/
theorem C2_amended_witness :
    runFetch initialState [FetchOutcome.success "A" 1 0, FetchOutcome.success "B" 2 0] =
      runFetch (St.mk (Cache.mk "old" (some 9) (some "e") (some 1)) (Prev.mk "older" (some 8)))
        [FetchOutcome.success "A" 1 0, FetchOutcome.success "B" 2 0] :=
  C2_amended initialState
    (St.mk (Cache.mk "old" (some 9) (some "e") (some 1)) (Prev.mk "older" (some 8)))
    "A" "B" 1 2 0 0 (by decide)

/-- Claim C3 counterexample: a successful capture stores exit code 7;
the following failed capture attempt erases it, setting the stored exit
code of the still-present snapshot (its text is unchanged) to absent, so
the stored snapshot does not remain unchanged in its exit code. -/
theorem C3_counterexample :
    (fetch (fetch initialState (FetchOutcome.success "a" 1 7))
        (FetchOutcome.failure "boom")).cache.text = "a" ∧
    (fetch initialState (FetchOutcome.success "a" 1 7)).cache.exit_code = some 7 ∧
    (fetch (fetch initialState (FetchOutcome.success "a" 1 7))
        (FetchOutcome.failure "boom")).cache.exit_code = none := by
  decide

/-- Claim C3 (amended): when a capture attempt fails, no snapshot is
recorded: the current text and timestamp and the whole previous slot are
unchanged and the last-error is set to the failure message; however the
stored exit code of the current snapshot is cleared to absent by the
failed attempt. -/
theorem C3_amended (st : St) (msg : String) :
    fetch st (FetchOutcome.failure msg) =
      St.mk (Cache.mk st.cache.text st.cache.ts (some msg) none) st.prev := rfl

/-- Claim C4: captured text longer than the configured character cap is
stored as exactly its first cap characters followed by the truncation
marker, hence with length cap plus the marker length, beginning with the
first cap characters and ending with the marker; text at or under the cap
is stored unchanged. -/
theorem C4_truncation (cap : Nat) (out : List Char) :
    (out.length > cap →
      truncateOut cap out = out.take cap ++ TRUNC_MARKER ∧
      (truncateOut cap out).length = cap + TRUNC_MARKER.length ∧
      out.take cap <+: truncateOut cap out ∧
      TRUNC_MARKER <:+ truncateOut cap out) ∧
    (out.length ≤ cap → truncateOut cap out = out) := by
  constructor
  · intro h
    have he : truncateOut cap out = out.take cap ++ TRUNC_MARKER := by
      unfold truncateOut
      rw [if_pos h]
    refine ⟨he, ?_, ?_, ?_⟩
    · rw [he, List.length_append, List.length_take]
      omega
    · rw [he]
      exact ⟨TRUNC_MARKER, rfl⟩
    · rw [he]
      exact ⟨out.take cap, rfl⟩
  · intro h
    unfold truncateOut
    rw [if_neg (by omega)]

/-- Claim C4 witness: the truncation statement evaluated at cap 2 on a
four-character text and at cap 5 on a three-character text. -/
theorem C4_truncation_witness :
    (truncateOut 2 "abcd".toList).length = 2 + TRUNC_MARKER.length ∧
    truncateOut 5 "abc".toList = "abc".toList :=
  ⟨((C4_truncation 2 "abcd".toList).1 (by decide)).2.1,
   (C4_truncation 5 "abc".toList).2 (by decide)⟩

/-- Claim C5: diffing any line sequence against itself yields zero hunks
and an entirely empty unified diff output. -/
theorem C5_diff_self_empty (x : List String) (f1 f2 : String) :
    groupedOpcodes 3 (toOpcodes (runs (diffOps x x)) 0 0) = [] ∧
    unifiedDiff f1 f2 x x = [] := by
  have hg : groupedOpcodes 3 (toOpcodes (runs (diffOps x x)) 0 0) = [] := by
    cases x with
    | nil =>
        rw [diffOps_self]
        rfl
    | cons a as =>
        rw [diffOps_self, runs_map_eq]
        have ht : toOpcodes [(Tag0.eq, as.length + 1)] 0 0 =
            [OpCode.mk DTag.equal 0 (as.length + 1) 0 (as.length + 1)] := by
          simp [toOpcodes]
        rw [ht, grouped_single_equal]
  refine ⟨hg, ?_⟩
  rw [unifiedDiff, hg]

/-- Claim C6 counterexample: after a successful capture of text a and a
successful capture of empty text, only one snapshot is observable (the
rotated previous one; the current slot is empty, as GET /raw reports),
yet GET /diff is not refused: it returns status 200 and runs the diff
against the empty current line list. -/
theorem C6_counterexample :
    snapshotCount emptyCurrentState = 1 ∧
    splitlinesPy emptyCurrentState.cache.text = [] ∧
    (diff emptyCurrentState).status = 200 ∧
    (diff emptyCurrentState).status ≠ 404 := by
  have h200 : (diff emptyCurrentState).status = 200 := by
    unfold diff
    rw [if_neg (by decide)]
  refine ⟨by decide, by decide, h200, ?_⟩
  rw [h200]
  decide

/-- Claim C6 (amended): the diff endpoint is refused with the 404
no-previous-snapshot response exactly when the previous slot text is
empty; whenever a previous snapshot exists the diff proceeds with status
200, even when the current text is empty, in which case the previous text
is diffed against the empty line list. -/
theorem C6_amended (st : St) :
    (st.prev.text = "" →
      diff st = HttpResponse.mk 404 "No previous snapshot. Click Fetch at least twice.\n") ∧
    (st.prev.text ≠ "" → (diff st).status = 200) := by
  constructor
  · intro h
    unfold diff
    rw [if_pos h]
  · intro h
    unfold diff
    rw [if_neg h]

/-- Claim C6 witness: the amended statement evaluated at the initial
state (no previous snapshot, refused) and at a state with a nonempty
previous snapshot (diff served). -/
theorem C6_amended_witness :
    diff initialState =
      HttpResponse.mk 404 "No previous snapshot. Click Fetch at least twice.\n" ∧
    (diff emptyCurrentState).status = 200 :=
  ⟨(C6_amended initialState).1 rfl, (C6_amended emptyCurrentState).2 (by decide)⟩

/-- Claim C7: after any capture attempt from any state, the last-error is
exactly determined by that attempt alone: absent when it succeeded, the
failure message when it failed. -/
theorem C7_last_error (st : St) (o : FetchOutcome) :
    (fetch st o).cache.err =
      (match o with
       | FetchOutcome.success _ _ _ => none
       | FetchOutcome.failure m => some m) := by
  cases o <;> rfl

/-- Claim C8: with no credentials configured (either value empty) the
gate passes every request; with both configured, a request without a
basic Authorization header gets the authentication-required response, a
malformed header or non-matching pair gets the invalid-credentials
response, and the matching pair passes. -/
theorem C8_auth_gate (U P : String) :
    ((U = "" ∨ P = "") → ∀ h, check_basic_auth U P h = AuthResult.ok) ∧
    (U ≠ "" → P ≠ "" →
      check_basic_auth U P AuthHeader.missing = AuthResult.authRequired ∧
      check_basic_auth U P AuthHeader.malformed = AuthResult.invalidAuth ∧
      (∀ u p, u = U → p = P →
        check_basic_auth U P (AuthHeader.credentials u p) = AuthResult.ok) ∧
      (∀ u p, ¬(u = U ∧ p = P) →
        check_basic_auth U P (AuthHeader.credentials u p) = AuthResult.invalidAuth)) := by
  have hgate : ∀ h, (U = "" ∨ P = "") → check_basic_auth U P h = AuthResult.ok := by
    intro h hcfg
    unfold check_basic_auth
    rw [if_pos hcfg]
  constructor
  · intro hcfg h
    exact hgate h hcfg
  · intro hU hP
    have hn : ¬(U = "" ∨ P = "") := by
      rintro (h | h)
      · exact hU h
      · exact hP h
    refine ⟨?_, ?_, ?_, ?_⟩
    · unfold check_basic_auth
      rw [if_neg hn]
    · unfold check_basic_auth
      rw [if_neg hn]
    · intro u p hu hp
      subst hu
      subst hp
      simp [check_basic_auth, hn]
    · intro u p hne
      simp [check_basic_auth, hn]
      intro hu hp
      exact absurd ⟨hu, hp⟩ hne

/-- Claim C8 witness: the gate evaluated with credentials u and p for a
request with no header, a wrong password, and the correct pair. -/
theorem C8_auth_gate_witness :
    check_basic_auth "u" "p" AuthHeader.missing = AuthResult.authRequired ∧
    check_basic_auth "u" "p" (AuthHeader.credentials "u" "wrong") = AuthResult.invalidAuth ∧
    check_basic_auth "u" "p" (AuthHeader.credentials "u" "p") = AuthResult.ok :=
  ⟨((C8_auth_gate "u" "p").2 (by decide) (by decide)).1,
   ((C8_auth_gate "u" "p").2 (by decide) (by decide)).2.2.2 "u" "wrong" (by decide),
   ((C8_auth_gate "u" "p").2 (by decide) (by decide)).2.2.1 "u" "p" rfl rfl⟩

/-- Claim C9: a successful capture with empty output text leaves the
success markers set (no error, exit code recorded) but is invisible at
the public interface: GET /raw and GET /download answer with the
no-config-cached 404 response, and no subsequent capture attempt ever
rotates the empty text into the previous slot. -/
theorem C9_empty_capture (st : St) (ts : Nat) (code : Int) :
    (fetch st (FetchOutcome.success "" ts code)).cache.err = none ∧
    (fetch st (FetchOutcome.success "" ts code)).cache.exit_code = some code ∧
    raw (fetch st (FetchOutcome.success "" ts code)) =
      HttpResponse.mk 404 "No config cached yet. POST /fetch first.\n" ∧
    download (fetch st (FetchOutcome.success "" ts code)) =
      HttpResponse.mk 404 "No config cached yet. POST /fetch first.\n" ∧
    ∀ o, (fetch (fetch st (FetchOutcome.success "" ts code)) o).prev =
      (fetch st (FetchOutcome.success "" ts code)).prev := by
  refine ⟨rfl, rfl, ?_, ?_, ?_⟩
  · simp [raw, fetch]
  · simp [download, fetch]
  · intro o
    cases o with
    | success t ts2 c2 => simp [fetch]
    | failure m => rfl

/-- Claim C10: when either stripped credential environment value is
empty, in particular when only one of the two is configured, the auth
gate passes every request unconditionally, exactly as when neither is
configured. -/
theorem C10_partial_config_bypass (envU envP : String)
    (hcfg : pyStrip envU = "" ∨ pyStrip envP = "") (h : AuthHeader) :
    check_basic_auth (pyStrip envU) (pyStrip envP) h = AuthResult.ok := by
  unfold check_basic_auth
  rw [if_pos hcfg]

/-- Claim C10 witness: only the password is configured (the user value is
whitespace, hence empty after stripping), and a request with arbitrary
credentials passes the gate. -/
theorem C10_partial_config_bypass_witness :
    check_basic_auth (pyStrip " ") (pyStrip "secret") (AuthHeader.credentials "x" "y") =
      AuthResult.ok :=
  C10_partial_config_bypass " " "secret" (Or.inl (by decide)) (AuthHeader.credentials "x" "y")

end App
